import Mathlib

/-!
Verification of the length-prefixed session protocol and connection-lifecycle
logic of the planning-reception-avatar repository.

The embedding follows the source files:
* `src/remote/communication_client.py` (`CommunicationClient`)
* `src/front/communication_server.py` (`CommunicationServer`)
* `src/front/reception_handler.py` (`ReceptionHandler`)

Bytes are modelled as natural numbers below 256 in lists; socket reads are
modelled by a `NetStream` carrying the bytes the peer will deliver plus a
chunk schedule describing how the transport splits them; library calls
(UTF-8 decoding, JSON parsing, Tailscale lookups) are parameters of the
embedded functions, mirroring their role as external collaborators.
-/

namespace ReceptionAvatar

/-- `int.to_bytes(k, "big")`: big-endian byte encoding of `n` in `k` bytes
(source: `communication_client.py` line 245, `communication_server.py` line 168). -/
def toBytesBE : Nat → Nat → List Nat
  | 0, _ => []
  | k + 1, n => toBytesBE k (n / 256) ++ [n % 256]

/-- `int.from_bytes(bs, "big")` (source: `communication_server.py` line 137). -/
def fromBytesBE (bs : List Nat) : Nat :=
  bs.foldl (fun acc b => acc * 256 + b) 0

lemma toBytesBE_length (k n : Nat) : (toBytesBE k n).length = k := by
  induction k generalizing n with
  | zero => simp [toBytesBE]
  | succ k ih => simp [toBytesBE, ih]

lemma fromBytesBE_append_single (xs : List Nat) (b : Nat) :
    fromBytesBE (xs ++ [b]) = fromBytesBE xs * 256 + b := by
  simp [fromBytesBE, List.foldl_append]

lemma fromBytesBE_toBytesBE (k n : Nat) (h : n < 256 ^ k) :
    fromBytesBE (toBytesBE k n) = n := by
  induction k generalizing n with
  | zero =>
    simp only [pow_zero, Nat.lt_one_iff] at h
    simp [toBytesBE, fromBytesBE, h]
  | succ k ih =>
    have hdiv : n / 256 < 256 ^ k := by
      rw [Nat.div_lt_iff_lt_mul (by norm_num)]
      calc n < 256 ^ (k + 1) := h
        _ = 256 ^ k * 256 := by ring
    rw [toBytesBE, fromBytesBE_append_single, ih _ hdiv]
    omega

/-- A socket receive stream: `data` is the sequence of bytes the peer will
deliver before closing, `sched i` bounds how many bytes the transport hands
over on the `i`-th `recv` call (modelling arbitrary chunking / short reads),
and `idx` counts the `recv` calls made so far. -/
structure NetStream where
  data : List Nat
  sched : Nat → Nat
  idx : Nat

/-- `sock.recv(want)`: returns at most `min want (sched idx)` bytes; returns
`[]` exactly when the peer has closed (no bytes left). -/
def NetStream.recv (s : NetStream) (want : Nat) : List Nat × NetStream :=
  let n := min want (s.sched s.idx)
  (s.data.take n, ⟨s.data.drop n, s.sched, s.idx + 1⟩)

/-- The loop body of `CommunicationServer._recv_exact` (lines 236-244):
accumulate chunks until `len` bytes are read; a zero-byte chunk means the
connection closed, in which case the empty byte string is returned. -/
def recvExactAux (s : NetStream) (len : Nat) (acc : List Nat) :
    List Nat × NetStream :=
  if h : acc.length < len then
    let r := s.recv (len - acc.length)
    if hc : r.1 = [] then ([], r.2)
    else recvExactAux r.2 len (acc ++ r.1)
  else (acc, s)
termination_by len - acc.length
decreasing_by
  have hlen : 0 < (s.recv (len - acc.length)).1.length := List.length_pos.mpr hc
  simp only [List.length_append]
  omega

/-- `CommunicationServer._recv_exact(sock, length)`. -/
def NetStream.recvExact (s : NetStream) (len : Nat) : List Nat × NetStream :=
  recvExactAux s len []

lemma recvExactAux_spec (d : Nat) :
    ∀ (s : NetStream) (len : Nat) (acc : List Nat),
      len - acc.length ≤ d → (∀ i, 1 ≤ s.sched i) →
      len ≤ acc.length + s.data.length →
      ∃ k, recvExactAux s len acc =
        (acc ++ s.data.take (len - acc.length),
         ⟨s.data.drop (len - acc.length), s.sched, s.idx + k⟩) := by
  induction d with
  | zero =>
    intro s len acc hd _ _
    refine ⟨0, ?_⟩
    unfold recvExactAux
    rw [dif_neg (by omega)]
    have h0 : len - acc.length = 0 := by omega
    simp [h0]
  | succ d ih =>
    intro s len acc hd hsched hlen
    by_cases h : acc.length < len
    · have hdata : 1 ≤ s.data.length := by omega
      unfold recvExactAux
      rw [dif_pos h]
      simp only [NetStream.recv]
      set M := min (len - acc.length) (s.sched s.idx) with hM
      have hM1 : 1 ≤ M := by
        have := hsched s.idx
        omega
      have hMle : M ≤ len - acc.length := by
        rw [hM]
        exact min_le_left _ _
      have hMdata : M ≤ s.data.length := by omega
      have hchunk : (s.data.take M).length = M := by
        rw [List.length_take]
        omega
      have hcne : s.data.take M ≠ [] := by
        intro hnil
        rw [hnil] at hchunk
        simp at hchunk
        omega
      rw [dif_neg hcne]
      obtain ⟨k, hk⟩ := ih ⟨s.data.drop M, s.sched, s.idx + 1⟩ len
        (acc ++ s.data.take M)
        (by simp only [List.length_append, hchunk]; omega)
        hsched
        (by simp only [List.length_append, hchunk, List.length_drop]; omega)
      refine ⟨1 + k, ?_⟩
      rw [hk]
      have hx : len - (acc ++ s.data.take M).length = len - acc.length - M := by
        simp only [List.length_append, hchunk]
        omega
      rw [hx]
      have htake : s.data.take M ++ (s.data.drop M).take (len - acc.length - M) =
          s.data.take (len - acc.length) := by
        have h1 : len - acc.length = M + (len - acc.length - M) := by omega
        conv_rhs => rw [h1, List.take_add]
      have hdrop : (s.data.drop M).drop (len - acc.length - M) =
          s.data.drop (len - acc.length) := by
        rw [List.drop_drop]
        congr 1
        omega
      rw [List.append_assoc, htake, hdrop]
      simp only [Prod.mk.injEq, NetStream.mk.injEq, true_and, and_true,
        eq_self_iff_true]
      omega
    · refine ⟨0, ?_⟩
      unfold recvExactAux
      rw [dif_neg h]
      have h0 : len - acc.length = 0 := by omega
      simp [h0]

lemma recvExact_spec (s : NetStream) (len : Nat)
    (hsched : ∀ i, 1 ≤ s.sched i) (hlen : len ≤ s.data.length) :
    ∃ k, s.recvExact len =
      (s.data.take len, ⟨s.data.drop len, s.sched, s.idx + k⟩) := by
  have := recvExactAux_spec len s len [] (by simp) hsched (by simpa using hlen)
  simpa [NetStream.recvExact] using this

/-- Reading from a closed connection yields the empty byte string. -/
lemma recvExact_closed (s : NetStream) (len : Nat)
    (hdata : s.data = []) (hlen : 1 ≤ len) : (s.recvExact len).1 = [] := by
  rw [NetStream.recvExact]
  unfold recvExactAux
  rw [dif_pos (by simpa using hlen)]
  simp [NetStream.recv, hdata]

/-- Requesting zero bytes yields the empty byte string without touching the
stream (the `while` loop of `_recv_exact` is never entered). -/
lemma recvExact_zero (s : NetStream) : s.recvExact 0 = ([], s) := by
  rw [NetStream.recvExact]
  unfold recvExactAux
  simp

/-- The server's frame size cap (`communication_server.py` line 138:
`10 * 1024 * 1024`). -/
def maxMessageBytes : Nat := 10 * 1024 * 1024

/-- The framed write of `CommunicationClient._send_json_message` (lines
245-246): 4-byte big-endian length header followed by the JSON body bytes. -/
def sendFrame (body : List Nat) : List Nat :=
  toBytesBE 4 body.length ++ body

/-- Result of running `message_bytes.decode("utf-8")` then
`json.loads(message)` on a frame body; the two library calls are external
collaborators, so the embedding takes their verdict as a parameter.
`J` is the type of parsed JSON documents. -/
inductive BodyClass (J : Type) where
  | notUtf8
  | notJson
  | json (j : J)

/-- Observable actions of the per-connection worker `_handle_client`. -/
inductive SrvEvent (J : Type) where
  | loggedOversized (n : Nat)
  | loggedDecodeError
  | loggedJsonError
  | dispatched (typ : String) (j : J) (registered : Bool)
  | ackSent
deriving DecidableEq

/-- The `while True` receive loop of `CommunicationServer._handle_client`
(lines 130-183), with a fuel bound on the number of iterations (the Python
loop is unbounded; every theorem below holds for every sufficient fuel).
Per iteration: read a 4-byte header (`break` on empty), reject bodies
declared larger than 10 MiB (`break`), read the body (`break` on empty),
decode UTF-8 (`break` on failure), parse JSON (log and continue the loop on
failure), else dispatch via `_process_message` and send an ack frame. -/
def handleClientLoop {J : Type} (classify : List Nat → BodyClass J)
    (typeOf : J → String) (handlers : List String) :
    Nat → NetStream → List (SrvEvent J) × NetStream
  | 0, s => ([], s)
  | fuel + 1, s =>
    let r1 := s.recvExact 4
    if r1.1 = [] then ([], r1.2)
    else if maxMessageBytes < fromBytesBE r1.1 then
      ([SrvEvent.loggedOversized (fromBytesBE r1.1)], r1.2)
    else
      let r2 := r1.2.recvExact (fromBytesBE r1.1)
      if r2.1 = [] then ([], r2.2)
      else
        match classify r2.1 with
        | BodyClass.notUtf8 => ([SrvEvent.loggedDecodeError], r2.2)
        | BodyClass.notJson =>
          let t := handleClientLoop classify typeOf handlers fuel r2.2
          (SrvEvent.loggedJsonError :: t.1, t.2)
        | BodyClass.json j =>
          let t := handleClientLoop classify typeOf handlers fuel r2.2
          (SrvEvent.dispatched (typeOf j) j (handlers.contains (typeOf j)) ::
            SrvEvent.ackSent :: t.1, t.2)

/-- Outcome of `_handle_client`: the events of the loop, the unread part of
the stream, and the effects of the `finally` block (lines 189-196), which
always discards the client from `self.clients` and closes the socket. -/
structure SrvResult (J : Type) where
  events : List (SrvEvent J)
  stream : NetStream
  clientRemoved : Bool
  socketClosed : Bool

/-- `CommunicationServer._handle_client` (loop plus `finally` block). -/
def handle_client {J : Type} (classify : List Nat → BodyClass J)
    (typeOf : J → String) (handlers : List String) (fuel : Nat)
    (s : NetStream) : SrvResult J :=
  let r := handleClientLoop classify typeOf handlers fuel s
  ⟨r.1, r.2, true, true⟩

lemma maxMessageBytes_lt_pow : maxMessageBytes < 256 ^ 4 := by
  norm_num [maxMessageBytes]

lemma toBytesBE_ne_nil (n : Nat) : toBytesBE 4 n ≠ [] := by
  intro h
  have := toBytesBE_length 4 n
  rw [h] at this
  simp at this

/-- One loop iteration on a stream beginning with a well-framed body of
admissible size: the header and body are read exactly, and the continuation
depends only on the decode verdict for the body. -/
lemma handleClientLoop_frame {J : Type} (classify : List Nat → BodyClass J)
    (typeOf : J → String) (handlers : List String) (fuel : Nat)
    (body rest : List Nat) (sched : Nat → Nat) (idx : Nat)
    (hsched : ∀ i, 1 ≤ sched i) (hlen : body.length ≤ maxMessageBytes)
    (hne : body ≠ []) :
    ∃ k, handleClientLoop classify typeOf handlers (fuel + 1)
        ⟨sendFrame body ++ rest, sched, idx⟩ =
      match classify body with
      | BodyClass.notUtf8 =>
        ([SrvEvent.loggedDecodeError], ⟨rest, sched, k⟩)
      | BodyClass.notJson =>
        (SrvEvent.loggedJsonError ::
          (handleClientLoop classify typeOf handlers fuel ⟨rest, sched, k⟩).1,
         (handleClientLoop classify typeOf handlers fuel ⟨rest, sched, k⟩).2)
      | BodyClass.json j =>
        (SrvEvent.dispatched (typeOf j) j (handlers.contains (typeOf j)) ::
          SrvEvent.ackSent ::
          (handleClientLoop classify typeOf handlers fuel ⟨rest, sched, k⟩).1,
         (handleClientLoop classify typeOf handlers fuel ⟨rest, sched, k⟩).2) := by
  have hhlen : (toBytesBE 4 body.length).length = 4 := toBytesBE_length 4 _
  have hdata : (⟨sendFrame body ++ rest, sched, idx⟩ : NetStream).data =
      toBytesBE 4 body.length ++ (body ++ rest) := by
    simp [sendFrame, List.append_assoc]
  obtain ⟨k1, e1⟩ := recvExact_spec ⟨sendFrame body ++ rest, sched, idx⟩ 4 hsched
    (by simp [sendFrame, List.length_append, hhlen])
  have htake4 : (sendFrame body ++ rest).take 4 = toBytesBE 4 body.length := by
    rw [sendFrame, List.append_assoc]
    exact List.take_left' hhlen
  have hdrop4 : (sendFrame body ++ rest).drop 4 = body ++ rest := by
    rw [sendFrame, List.append_assoc]
    exact List.drop_left' hhlen
  rw [htake4, hdrop4] at e1
  have hdec : fromBytesBE (toBytesBE 4 body.length) = body.length :=
    fromBytesBE_toBytesBE 4 _ (lt_of_le_of_lt hlen maxMessageBytes_lt_pow)
  obtain ⟨k2, e2⟩ := recvExact_spec ⟨body ++ rest, sched, idx + k1⟩ body.length
    hsched (by simp)
  have htakeb : (body ++ rest).take body.length = body := List.take_left' rfl
  have hdropb : (body ++ rest).drop body.length = rest := List.drop_left' rfl
  rw [htakeb, hdropb] at e2
  refine ⟨idx + k1 + k2, ?_⟩
  simp only [handleClientLoop, e1, hdec]
  rw [if_neg (by simp [toBytesBE_ne_nil])]
  rw [if_neg (by omega)]
  simp only [e2]
  rw [if_neg hne]

lemma frame_header_read (body rest : List Nat) (sched : Nat → Nat) (idx : Nat)
    (hsched : ∀ i, 1 ≤ sched i) :
    ∃ k, NetStream.recvExact ⟨sendFrame body ++ rest, sched, idx⟩ 4 =
      (toBytesBE 4 body.length, ⟨body ++ rest, sched, k⟩) := by
  have hhlen : (toBytesBE 4 body.length).length = 4 := toBytesBE_length 4 _
  obtain ⟨k1, e1⟩ := recvExact_spec ⟨sendFrame body ++ rest, sched, idx⟩ 4 hsched
    (by simp [sendFrame, List.length_append, hhlen])
  have htake4 : (sendFrame body ++ rest).take 4 = toBytesBE 4 body.length := by
    rw [sendFrame, List.append_assoc]
    exact List.take_left' hhlen
  have hdrop4 : (sendFrame body ++ rest).drop 4 = body ++ rest := by
    rw [sendFrame, List.append_assoc]
    exact List.drop_left' hhlen
  rw [htake4, hdrop4] at e1
  exact ⟨idx + k1, e1⟩

lemma frame_body_read (body rest : List Nat) (sched : Nat → Nat) (idx : Nat)
    (hsched : ∀ i, 1 ≤ sched i) :
    ∃ k, NetStream.recvExact ⟨body ++ rest, sched, idx⟩ body.length =
      (body, ⟨rest, sched, k⟩) := by
  obtain ⟨k2, e2⟩ := recvExact_spec ⟨body ++ rest, sched, idx⟩ body.length hsched
    (by simp)
  have htakeb : (body ++ rest).take body.length = body := List.take_left' rfl
  have hdropb : (body ++ rest).drop body.length = rest := List.drop_left' rfl
  rw [htakeb, hdropb] at e2
  exact ⟨idx + k2, e2⟩

/-- C1. Framing round-trip: for every message whose UTF-8 JSON encoding
`body` is at most 10 MiB (a JSON document is never empty), the client's
framed send (4-byte big-endian length header then the body, lines 245-246 of
`communication_client.py`) followed by the server's framed receive
(`_recv_exact`: exactly 4 header bytes, then exactly the declared number of
body bytes, looping on short reads) reconstructs the header, the declared
length, and the body exactly, and the worker loop dispatches the decoded
message `m` — over any transport chunking that delivers at least one byte
per read. -/
theorem C1_framing_roundtrip {J : Type} (classify : List Nat → BodyClass J)
    (typeOf : J → String) (handlers : List String) (fuel : Nat) (m : J)
    (body rest : List Nat) (sched : Nat → Nat) (idx : Nat)
    (hsched : ∀ i, 1 ≤ sched i)
    (hlen : body.length ≤ maxMessageBytes)
    (hne : body ≠ [])
    (hclass : classify body = BodyClass.json m) :
    ∃ k1 k2 k,
      NetStream.recvExact ⟨sendFrame body ++ rest, sched, idx⟩ 4 =
        (toBytesBE 4 body.length, ⟨body ++ rest, sched, k1⟩) ∧
      fromBytesBE (toBytesBE 4 body.length) = body.length ∧
      NetStream.recvExact ⟨body ++ rest, sched, k1⟩ body.length =
        (body, ⟨rest, sched, k2⟩) ∧
      handleClientLoop classify typeOf handlers (fuel + 1)
          ⟨sendFrame body ++ rest, sched, idx⟩ =
        (SrvEvent.dispatched (typeOf m) m (handlers.contains (typeOf m)) ::
           SrvEvent.ackSent ::
           (handleClientLoop classify typeOf handlers fuel ⟨rest, sched, k⟩).1,
         (handleClientLoop classify typeOf handlers fuel ⟨rest, sched, k⟩).2) := by
  obtain ⟨k1, e1⟩ := frame_header_read body rest sched idx hsched
  obtain ⟨k2, e2⟩ := frame_body_read body rest sched k1 hsched
  obtain ⟨k, hstep⟩ := handleClientLoop_frame classify typeOf handlers fuel
    body rest sched idx hsched hlen hne
  rw [hclass] at hstep
  exact ⟨k1, k2, k, e1,
    fromBytesBE_toBytesBE 4 _ (lt_of_le_of_lt hlen maxMessageBytes_lt_pow),
    e2, hstep⟩

/-- C2. Oversized-frame rejection: when the 4-byte header declares a body
length strictly greater than 10 MiB, the worker logs the violation, exits
the receive loop without reading a single body byte (the remaining stream is
exactly the bytes after the header), and the `finally` block removes the
client from the tracked set and closes the connection. -/
theorem C2_oversized_frame_rejected {J : Type} (classify : List Nat → BodyClass J)
    (typeOf : J → String) (handlers : List String) (fuel : Nat)
    (n : Nat) (rest : List Nat) (sched : Nat → Nat) (idx : Nat)
    (hover : maxMessageBytes < n) (hlt : n < 2 ^ 32)
    (hsched : ∀ i, 1 ≤ sched i) :
    ∃ k, handle_client classify typeOf handlers (fuel + 1)
        ⟨toBytesBE 4 n ++ rest, sched, idx⟩ =
      ⟨[SrvEvent.loggedOversized n], ⟨rest, sched, k⟩, true, true⟩ := by
  have hhlen : (toBytesBE 4 n).length = 4 := toBytesBE_length 4 n
  obtain ⟨k1, e1⟩ := recvExact_spec ⟨toBytesBE 4 n ++ rest, sched, idx⟩ 4 hsched
    (by simp [List.length_append, hhlen])
  have htake4 : (toBytesBE 4 n ++ rest).take 4 = toBytesBE 4 n :=
    List.take_left' hhlen
  have hdrop4 : (toBytesBE 4 n ++ rest).drop 4 = rest := List.drop_left' hhlen
  rw [htake4, hdrop4] at e1
  have hdec : fromBytesBE (toBytesBE 4 n) = n :=
    fromBytesBE_toBytesBE 4 n (by
      have h4 : (256 : Nat) ^ 4 = 2 ^ 32 := by norm_num
      omega)
  refine ⟨idx + k1, ?_⟩
  simp only [handle_client, handleClientLoop, e1, hdec]
  rw [if_neg (by simp [toBytesBE_ne_nil])]
  rw [if_pos hover]

/-- C4. Malformed-frame tolerance: a complete frame whose body is valid
UTF-8 but not valid JSON is logged and the receive loop continues on the
same connection, so a subsequent well-formed frame is still decoded and
dispatched to its handler normally. -/
theorem C4_malformed_frame_tolerated {J : Type} (classify : List Nat → BodyClass J)
    (typeOf : J → String) (handlers : List String) (fuel : Nat)
    (bad good rest : List Nat) (sched : Nat → Nat) (idx : Nat) (m : J)
    (hsched : ∀ i, 1 ≤ sched i)
    (hbadlen : bad.length ≤ maxMessageBytes) (hbadne : bad ≠ [])
    (hbad : classify bad = BodyClass.notJson)
    (hglen : good.length ≤ maxMessageBytes) (hgne : good ≠ [])
    (hgood : classify good = BodyClass.json m) :
    ∃ k, handleClientLoop classify typeOf handlers (fuel + 2)
        ⟨sendFrame bad ++ (sendFrame good ++ rest), sched, idx⟩ =
      (SrvEvent.loggedJsonError ::
         SrvEvent.dispatched (typeOf m) m (handlers.contains (typeOf m)) ::
         SrvEvent.ackSent ::
         (handleClientLoop classify typeOf handlers fuel ⟨rest, sched, k⟩).1,
       (handleClientLoop classify typeOf handlers fuel ⟨rest, sched, k⟩).2) := by
  obtain ⟨k1, h1⟩ := handleClientLoop_frame classify typeOf handlers (fuel + 1)
    bad (sendFrame good ++ rest) sched idx hsched hbadlen hbadne
  rw [hbad] at h1
  obtain ⟨k2, h2⟩ := handleClientLoop_frame classify typeOf handlers fuel
    good rest sched k1 hsched hglen hgne
  rw [hgood] at h2
  refine ⟨k2, ?_⟩
  rw [h1, h2]

/-- C9. Implicit — zero-length frame terminates the connection: a header
declaring body length 0 makes `_recv_exact` return the empty byte string
(first conjunct: a zero-byte request always yields the empty string), which
is exactly what a read on a closed connection yields (second conjunct), so
the worker exits its loop with no message dispatched, removes the client
from the tracked set, and closes the socket (third conjunct). -/
theorem C9_zero_length_frame_disconnects {J : Type}
    (classify : List Nat → BodyClass J) (typeOf : J → String)
    (handlers : List String) (fuel : Nat)
    (rest : List Nat) (sched : Nat → Nat) (idx : Nat)
    (hsched : ∀ i, 1 ≤ sched i) :
    (∀ s : NetStream, (s.recvExact 0).1 = []) ∧
    (∀ (sch : Nat → Nat) (i : Nat), (NetStream.recvExact ⟨[], sch, i⟩ 4).1 = []) ∧
    ∃ k, handle_client classify typeOf handlers (fuel + 1)
        ⟨toBytesBE 4 0 ++ rest, sched, idx⟩ =
      ⟨[], ⟨rest, sched, k⟩, true, true⟩ := by
  refine ⟨fun s => by rw [recvExact_zero],
    fun sch i => recvExact_closed _ 4 rfl (by norm_num), ?_⟩
  have hhlen : (toBytesBE 4 0).length = 4 := toBytesBE_length 4 0
  obtain ⟨k1, e1⟩ := recvExact_spec ⟨toBytesBE 4 0 ++ rest, sched, idx⟩ 4 hsched
    (by simp [List.length_append, hhlen])
  have htake4 : (toBytesBE 4 0 ++ rest).take 4 = toBytesBE 4 0 :=
    List.take_left' hhlen
  have hdrop4 : (toBytesBE 4 0 ++ rest).drop 4 = rest := List.drop_left' hhlen
  rw [htake4, hdrop4] at e1
  have hdec : fromBytesBE (toBytesBE 4 0) = 0 :=
    fromBytesBE_toBytesBE 4 0 (by norm_num)
  refine ⟨idx + k1, ?_⟩
  simp only [handle_client, handleClientLoop, e1, hdec]
  rw [if_neg (by simp [toBytesBE_ne_nil])]
  rw [if_neg (by simp [maxMessageBytes])]
  rw [recvExact_zero]
  simp

/-- Ack-read timeout installed before the ack read
(`communication_client.py` line 253: `settimeout(0.1)`). -/
def ackTimeoutSeconds : ℚ := 1 / 10

/-- Default connect timeout of the client constructor (line 38:
`timeout: int = 10`). -/
def defaultTimeoutSeconds : ℚ := 10

/-- Outcome of a raw `sock.recv` call during the ack read: timed out
(`TimeoutError`/`BlockingIOError`, caught at line 261), failed with another
exception (propagates to the outer handler at line 269), or returned bytes
(`b""` when the peer closed). -/
inductive RecvOutcome where
  | timedOut
  | errored
  | got (bs : List Nat)

/-- The fields of a decoded ack that `_send_json_message` inspects:
`response_data.get("status")`. -/
structure AckJson where
  status : Option String

/-- `CommunicationClient._send_json_message` (lines 234-271). `sockSet`
models `self.socket is not None`, `writeOk` the success of the two `sendall`
calls, `ack1`/`ack2` the two ack `recv` calls, and `parseAck` the
`decode("utf-8")`-then-`json.loads` of the ack body (`none` = raises). -/
def send_json_message (sockSet : Bool) (writeOk : Bool)
    (ack1 ack2 : RecvOutcome) (parseAck : List Nat → Option AckJson) : Bool :=
  if !sockSet then false
  else if !writeOk then false
  else
    match ack1 with
    | RecvOutcome.timedOut => true
    | RecvOutcome.errored => false
    | RecvOutcome.got r1 =>
      if 0 < fromBytesBE r1 then
        match ack2 with
        | RecvOutcome.timedOut => true
        | RecvOutcome.errored => false
        | RecvOutcome.got r2 =>
          if r2 = [] then true
          else
            match parseAck r2 with
            | none => false
            | some a => a.status == some "received"
      else true

/-- C3 counterexample: the peer delivers an ack frame whose JSON decodes
with `status` equal to `"error"`; although the socket is set and the framed
write succeeded, `_send_json_message` returns `False` — refuting the claim
that only a transport-level failure of the write itself or an unset socket
makes it return `False`. -/
theorem C3_counterexample :
    send_json_message true true (RecvOutcome.got [0, 0, 0, 2])
      (RecvOutcome.got [1, 2]) (fun _ => some ⟨some "error"⟩) = false := by
  rfl

/-- C3 (amended). Ack timeout is non-fatal: if the write succeeds and the
ack read times out, `_send_json_message` returns `True`, and the ack wait is
bounded by the 0.1-second ack timeout, which is shorter than the 10-second
connect timeout; an unset socket or a failed write returns `False` — but so
does a delivered ack that fails to decode or whose decoded `status` is not
`"received"`, and an ack read failing with a non-timeout error. -/
theorem C3_ack_timeout_nonfatal :
    (∀ ack2 parseAck,
      send_json_message true true RecvOutcome.timedOut ack2 parseAck = true) ∧
    (∀ ack1 ack2 parseAck,
      send_json_message false true ack1 ack2 parseAck = false) ∧
    (∀ ack1 ack2 parseAck,
      send_json_message true false ack1 ack2 parseAck = false) ∧
    (∀ (r1 r2 : List Nat) (parseAck : List Nat → Option AckJson) (a : AckJson),
      0 < fromBytesBE r1 → r2 ≠ [] → parseAck r2 = some a →
      a.status ≠ some "received" →
      send_json_message true true (RecvOutcome.got r1) (RecvOutcome.got r2)
        parseAck = false) ∧
    (∀ r1 parseAck, 0 < fromBytesBE r1 →
      send_json_message true true (RecvOutcome.got r1) RecvOutcome.timedOut
        parseAck = true) ∧
    ackTimeoutSeconds < defaultTimeoutSeconds := by
  refine ⟨fun ack2 parseAck => rfl, fun ack1 ack2 parseAck => rfl,
    fun ack1 ack2 parseAck => rfl, ?_, ?_, ?_⟩
  · intro r1 r2 parseAck a h1 h2 hp hs
    simp only [send_json_message, Bool.not_true, Bool.false_eq_true,
      if_false, if_pos h1, if_neg h2, hp]
    simpa using hs
  · intro r1 parseAck h1
    simp only [send_json_message, Bool.not_true, Bool.false_eq_true,
      if_false, if_pos h1]
  · norm_num [ackTimeoutSeconds, defaultTimeoutSeconds]

/-- Socket handles are identifiers in the embedding. -/
abbrev Sock := Nat

/-- Class-level shared state of `CommunicationClient` (lines 25-32): the
connection pool, the Tailscale verification flag and its timestamp, and the
device-name resolution cache. One value is shared by every client instance
in the process. -/
structure GlobalState where
  connection_pool : List (String × Sock)
  tailscale_verified : Bool
  tailscale_check_time : Nat
  device_cache : List (String × String)

/-- Line 32: `TAILSCALE_CHECK_INTERVAL = 300` (5 minutes). -/
def TAILSCALE_CHECK_INTERVAL : Nat := 300

/-- Python dict assignment `d[k] = v` on an association list. -/
def setEntry {β : Type} (l : List (String × β)) (k : String) (v : β) :
    List (String × β) :=
  (k, v) :: l.filter (fun p => !(p.1 == k))

/-- Python dict `pop` on an association list. -/
def eraseEntry {β : Type} (l : List (String × β)) (k : String) :
    List (String × β) :=
  l.filter (fun p => !(p.1 == k))

/-- The instance state the embedded operations touch: `self.socket`. -/
structure ClientConn where
  socket : Option Sock

/-- `self._pool_key = f"{front_pc_name}:{port}"` (line 56). -/
def pool_key (name : String) (port : Nat) : String :=
  name ++ ":" ++ toString port

/-- Result of `_get_pooled_connection`: the socket handed back (if any), the
updated shared state, and any socket closed by a failed probe. -/
structure PoolGetResult where
  sock : Option Sock
  g : GlobalState
  closed : List Sock

/-- `CommunicationClient._get_pooled_connection` (lines 125-142): pop the
pooled socket for this key if present, probe it with a zero-length send
(`probeOk sock` = the probe did not raise, `BlockingIOError` being
suppressed); return it on success, close and discard it on failure. -/
def get_pooled_connection (key : String) (probeOk : Sock → Bool)
    (g : GlobalState) : PoolGetResult :=
  match g.connection_pool.lookup key with
  | some sock =>
    let g1 : GlobalState := { g with connection_pool := eraseEntry g.connection_pool key }
    if probeOk sock then ⟨some sock, g1, []⟩
    else ⟨none, g1, [sock]⟩
  | none => ⟨none, g, []⟩

/-- `CommunicationClient._return_to_pool` (lines 144-149). -/
def return_to_pool (key : String) (c : ClientConn) (g : GlobalState) :
    ClientConn × GlobalState :=
  match c.socket with
  | some sock =>
    (⟨none⟩, { g with connection_pool := setEntry g.connection_pool key sock })
  | none => (c, g)

/-- Result of `_verify_tailscale_once`: verdict, updated shared state, and
whether `check_and_setup_tailscale` was actually invoked. -/
structure VerifyResult where
  ok : Bool
  g : GlobalState
  checkPerformed : Bool

/-- `CommunicationClient._verify_tailscale_once` (lines 103-123): skip the
check while the verified flag is set and less than
`TAILSCALE_CHECK_INTERVAL` seconds have passed since the recorded check
time; otherwise run the check (`checkOutcome`) and record success. -/
def verify_tailscale_once (now : Nat) (checkOutcome : Bool) (g : GlobalState) :
    VerifyResult :=
  if g.tailscale_verified ∧ now - g.tailscale_check_time < TAILSCALE_CHECK_INTERVAL then
    ⟨true, g, false⟩
  else if checkOutcome then
    ⟨true, { g with tailscale_verified := true, tailscale_check_time := now }, true⟩
  else ⟨false, g, true⟩

/-- Result of `_resolve_device_name_cached`: the address (if any), the
updated shared state, and whether `TailscaleUtils.resolve_device_name` was
invoked (a fresh directory lookup). -/
structure ResolveResult where
  ip : Option String
  g : GlobalState
  didLookup : Bool

/-- `CommunicationClient._resolve_device_name_cached` (lines 84-101): a
cache hit returns the cached address with no directory lookup; a miss does a
fresh lookup and stores a successful result. The cache entries carry no
timestamp and are never invalidated here. -/
def resolve_device_name_cached (name : String)
    (resolve : String → Option String) (g : GlobalState) : ResolveResult :=
  match g.device_cache.lookup name with
  | some ip => ⟨some ip, g, false⟩
  | none =>
    match resolve name with
    | some ip =>
      ⟨some ip, { g with device_cache := setEntry g.device_cache name ip }, true⟩
    | none => ⟨none, g, true⟩

/-- `CommunicationClient.clear_cache` (lines 319-326): clears the device
cache and resets the Tailscale flag and check time. It does not touch the
connection pool. -/
def clear_cache (g : GlobalState) : GlobalState :=
  { g with device_cache := [], tailscale_verified := false,
           tailscale_check_time := 0 }

/-- `front_pc_name.replace(".", "").isdigit()` (line 155). -/
def looksLikeIp (s : String) : Bool :=
  let t := s.replace "." ""
  !t.isEmpty && t.all Char.isDigit

/-- Environment of a `connect()` call: probe behaviour of pooled sockets,
the current time, the Tailscale check verdict, the directory lookup, the
fresh socket the OS would hand out, and whether the TCP connect succeeds. -/
structure ConnectEnv where
  probeOk : Sock → Bool
  now : Nat
  tailscaleCheckOutcome : Bool
  resolve : String → Option String
  freshSock : Sock
  transportConnectOk : Bool

/-- Result of `_quick_connect`. -/
structure QuickResult where
  ok : Bool
  c : ClientConn
  g : GlobalState
  resolveCalled : Bool

/-- `CommunicationClient._quick_connect` (lines 151-176): use the name
directly when it looks like an IP literal, otherwise resolve it through the
cache; then open the transport connection; on failure `_cleanup_socket`
leaves `self.socket = None`. -/
def quick_connect (name : String) (env : ConnectEnv) (c : ClientConn)
    (g : GlobalState) : QuickResult :=
  if looksLikeIp name then
    if env.transportConnectOk then ⟨true, ⟨some env.freshSock⟩, g, false⟩
    else ⟨false, ⟨none⟩, g, false⟩
  else
    let r := resolve_device_name_cached name env.resolve g
    match r.ip with
    | none => ⟨false, c, r.g, true⟩
    | some _ =>
      if env.transportConnectOk then ⟨true, ⟨some env.freshSock⟩, r.g, true⟩
      else ⟨false, ⟨none⟩, r.g, true⟩

/-- Result of `connect()` with call-tracking flags. -/
structure ConnectResult where
  ok : Bool
  c : ClientConn
  g : GlobalState
  closedSocks : List Sock
  usedPool : Bool
  verifyCalled : Bool
  resolveCalled : Bool

/-- `CommunicationClient.connect` (lines 178-203): try the pool first and
return immediately on a pooled socket; otherwise verify Tailscale (cached)
and fall through to `_quick_connect`. -/
def connect (name : String) (port : Nat) (env : ConnectEnv)
    (g : GlobalState) : ConnectResult :=
  let pr := get_pooled_connection (pool_key name port) env.probeOk g
  match pr.sock with
  | some sock =>
    ⟨true, ⟨some sock⟩, pr.g, pr.closed, true, false, false⟩
  | none =>
    let vr := verify_tailscale_once env.now env.tailscaleCheckOutcome pr.g
    if vr.ok then
      let qr := quick_connect name env ⟨none⟩ vr.g
      ⟨qr.ok, qr.c, qr.g, pr.closed, false, true, qr.resolveCalled⟩
    else ⟨false, ⟨none⟩, vr.g, pr.closed, false, true, false⟩

/-- `CommunicationClient.is_connected` (lines 273-275). -/
def is_connected (c : ClientConn) : Bool :=
  c.socket.isSome

/-- `CommunicationClient._cleanup_socket` (lines 277-285): close the socket
if set and clear the attribute. -/
def cleanup_socket (c : ClientConn) : ClientConn × List Sock :=
  match c.socket with
  | some sock => (⟨none⟩, [sock])
  | none => (c, [])

/-- `CommunicationClient.disconnect` (lines 291-308): with `reuse` return
the socket to the pool, otherwise close it; either way the socket attribute
ends up `None`. -/
def disconnect (reuse : Bool) (key : String) (c : ClientConn)
    (g : GlobalState) : ClientConn × GlobalState × List Sock :=
  match c.socket with
  | none => (c, g, [])
  | some sock =>
    if reuse then
      let r := return_to_pool key c g
      (r.1, r.2, [])
    else (⟨none⟩, g, [sock])

lemma lookup_eraseEntry {β : Type} (l : List (String × β)) (k : String) :
    (eraseEntry l k).lookup k = none := by
  induction l with
  | nil => rfl
  | cons p t ih =>
    by_cases h : p.1 == k
    · simpa [eraseEntry, List.filter_cons, h] using ih
    · have hne : p.1 ≠ k := by simpa using h
      have hk : (k == p.1) = false := beq_eq_false_iff_ne.mpr (Ne.symm hne)
      simp only [eraseEntry] at ih
      simp [eraseEntry, List.filter_cons, h, List.lookup, hk, ih]

lemma lookup_setEntry {β : Type} (l : List (String × β)) (k : String) (v : β) :
    (setEntry l k v).lookup k = some v := by
  simp [setEntry, List.lookup]

lemma verify_tailscale_once_pool (now : Nat) (checkOutcome : Bool)
    (g : GlobalState) :
    (verify_tailscale_once now checkOutcome g).g.connection_pool =
      g.connection_pool := by
  unfold verify_tailscale_once
  split
  · rfl
  · split <;> rfl

lemma resolve_device_name_cached_pool (name : String)
    (resolve : String → Option String) (g : GlobalState) :
    (resolve_device_name_cached name resolve g).g.connection_pool =
      g.connection_pool := by
  unfold resolve_device_name_cached
  split
  · rfl
  · split <;> rfl

lemma quick_connect_pool (name : String) (env : ConnectEnv) (c : ClientConn)
    (g : GlobalState) :
    (quick_connect name env c g).g.connection_pool = g.connection_pool := by
  unfold quick_connect
  by_cases hip : looksLikeIp name
  · by_cases ht : env.transportConnectOk <;> simp [hip, ht]
  · cases hres : (resolve_device_name_cached name env.resolve g).ip with
    | none =>
      simp [hip, hres, resolve_device_name_cached_pool name env.resolve g]
    | some ip =>
      by_cases ht : env.transportConnectOk <;>
        simp [hip, hres, ht, resolve_device_name_cached_pool name env.resolve g]

lemma quick_connect_ok_socket (name : String) (env : ConnectEnv)
    (c : ClientConn) (g : GlobalState) :
    (quick_connect name env c g).ok = true →
    (quick_connect name env c g).c.socket = some env.freshSock := by
  unfold quick_connect
  by_cases hip : looksLikeIp name
  · by_cases ht : env.transportConnectOk <;> simp [hip, ht]
  · cases hres : (resolve_device_name_cached name env.resolve g).ip with
    | none => simp [hip, hres]
    | some ip =>
      by_cases ht : env.transportConnectOk <;> simp [hip, hres, ht]

/-- C6. Pooled-connection reuse: `connect()` first consults the shared pool
under its `target:port` key. If a pooled socket is present and the
zero-length probe write does not raise, `connect()` returns success with
that socket, without calling `_verify_tailscale_once` or
`_resolve_device_name_cached`, and with the pool entry popped. If the probe
raises, the pooled socket is closed and discarded (not returned — the entry
is gone from the pool) and `connect()` falls through to the
Tailscale-verified fresh-connection path. -/
theorem C6_pooled_connection_reuse (name : String) (port : Nat)
    (env : ConnectEnv) (g : GlobalState) (sock : Sock)
    (hpool : g.connection_pool.lookup (pool_key name port) = some sock) :
    (env.probeOk sock = true →
      connect name port env g =
        ⟨true, ⟨some sock⟩,
         { g with connection_pool :=
             eraseEntry g.connection_pool (pool_key name port) },
         [], true, false, false⟩) ∧
    (env.probeOk sock = false →
      (connect name port env g).closedSocks = [sock] ∧
      (connect name port env g).usedPool = false ∧
      (connect name port env g).verifyCalled = true ∧
      ((connect name port env g).ok = true →
        (connect name port env g).c.socket = some env.freshSock) ∧
      (connect name port env g).g.connection_pool.lookup
        (pool_key name port) = none) := by
  constructor
  · intro hprobe
    have hpr : get_pooled_connection (pool_key name port) env.probeOk g =
        ⟨some sock,
         { g with connection_pool :=
             eraseEntry g.connection_pool (pool_key name port) }, []⟩ := by
      simp [get_pooled_connection, hpool, hprobe]
    simp [connect, hpr]
  · intro hprobe
    have hpr : get_pooled_connection (pool_key name port) env.probeOk g =
        ⟨none,
         { g with connection_pool :=
             eraseEntry g.connection_pool (pool_key name port) }, [sock]⟩ := by
      simp [get_pooled_connection, hpool, hprobe]
    set g1 : GlobalState :=
      { g with connection_pool :=
          eraseEntry g.connection_pool (pool_key name port) } with hg1
    simp only [connect, hpr]
    by_cases hv : (verify_tailscale_once env.now env.tailscaleCheckOutcome g1).ok
    · simp only [hv, if_true]
      refine ⟨by trivial, by trivial, by trivial, ?_, ?_⟩
      · exact quick_connect_ok_socket name env ⟨none⟩ _
      · rw [quick_connect_pool, verify_tailscale_once_pool]
        exact lookup_eraseEntry g.connection_pool (pool_key name port)
    · simp only [hv, if_false, Bool.false_eq_true]
      refine ⟨by trivial, by trivial, by trivial, by simp, ?_⟩
      rw [verify_tailscale_once_pool]
      exact lookup_eraseEntry g.connection_pool (pool_key name port)

/-- C7 counterexample: after a resolution stores an entry in the device
cache, every later resolution of the same name returns the cached address
with no fresh directory lookup, no matter how much time passes or what the
directory now answers — `_resolve_device_name_cached` takes no time input
and its entries carry no timestamp, so there is no TTL to elapse. -/
theorem C7_counterexample :
    (resolve_device_name_cached "front-pc" (fun _ => some "100.64.0.9")
        ((resolve_device_name_cached "front-pc" (fun _ => some "100.64.0.1")
          ⟨[], false, 0, []⟩).g)).didLookup = false ∧
    (resolve_device_name_cached "front-pc" (fun _ => some "100.64.0.9")
        ((resolve_device_name_cached "front-pc" (fun _ => some "100.64.0.1")
          ⟨[], false, 0, []⟩).g)).ip = some "100.64.0.1" := by
  constructor <;> rfl

/-- C7 (amended). The device-name cache has no per-entry timestamp and no
TTL: a cache hit returns the cached address with no directory lookup and no
state change, and only a cache miss performs a fresh lookup. The fixed
5-minute (300 s) TTL governs only the Tailscale overlay-network
verification flag: while the flag is set and less than 300 s have passed
since the recorded check time the check is skipped, and once at least 300 s
have passed the check is performed again. -/
theorem C7_resolution_cache_no_ttl :
    (∀ name resolve g ip, g.device_cache.lookup name = some ip →
      resolve_device_name_cached name resolve g = ⟨some ip, g, false⟩) ∧
    (∀ name resolve g, g.device_cache.lookup name = none →
      (resolve_device_name_cached name resolve g).didLookup = true) ∧
    (∀ now checkOutcome g, g.tailscale_verified = true →
      now - g.tailscale_check_time < TAILSCALE_CHECK_INTERVAL →
      verify_tailscale_once now checkOutcome g = ⟨true, g, false⟩) ∧
    (∀ now checkOutcome g,
      TAILSCALE_CHECK_INTERVAL ≤ now - g.tailscale_check_time →
      (verify_tailscale_once now checkOutcome g).checkPerformed = true) ∧
    TAILSCALE_CHECK_INTERVAL = 300 := by
  refine ⟨?_, ?_, ?_, ?_, rfl⟩
  · intro name resolve g ip h
    simp [resolve_device_name_cached, h]
  · intro name resolve g h
    simp only [resolve_device_name_cached, h]
    split <;> rfl
  · intro now checkOutcome g hv ht
    simp [verify_tailscale_once, hv, ht]
  · intro now checkOutcome g ht
    have : ¬(g.tailscale_verified = true ∧
        now - g.tailscale_check_time < TAILSCALE_CHECK_INTERVAL) := by
      rintro ⟨_, hlt⟩
      omega
    simp only [verify_tailscale_once, if_neg this]
    split <;> rfl

/-- C8 counterexample: `clear_cache` leaves a pooled connection in place —
the connection pool entry for `"front-pc:9999"` survives the cache clear,
refuting the claim that `clear_cache` removes pool entries. -/
theorem C8_counterexample :
    (clear_cache
      ⟨[("front-pc:9999", 7)], true, 120,
       [("front-pc", "100.64.0.1")]⟩).connection_pool =
      [("front-pc:9999", 7)] := by
  rfl

/-- C8 (amended). The connection pool is keyed by the string
`"target:port"`; `_return_to_pool` stores the instance socket under that
key (clearing the instance attribute), and the entry stays until popped by
`_get_pooled_connection`. `clear_cache` clears only the device-name cache
and resets the Tailscale verification flag and check time; it leaves the
connection pool untouched. -/
theorem C8_pool_survives_clear_cache (g : GlobalState) (name : String)
    (port : Nat) (sock : Sock) :
    (clear_cache g).connection_pool = g.connection_pool ∧
    (clear_cache g).device_cache = [] ∧
    (clear_cache g).tailscale_verified = false ∧
    (clear_cache g).tailscale_check_time = 0 ∧
    pool_key name port = name ++ ":" ++ toString port ∧
    (return_to_pool (pool_key name port) ⟨some sock⟩ g).2.connection_pool.lookup
      (pool_key name port) = some sock ∧
    (return_to_pool (pool_key name port) ⟨some sock⟩ g).1.socket = none := by
  refine ⟨rfl, rfl, rfl, rfl, rfl, ?_, rfl⟩
  simp [return_to_pool, lookup_setEntry]

/-- C10. Implicit — `is_connected` ignores transport liveness: it returns
`True` exactly when the socket attribute is set, probing nothing (in the
embedding it is a function of the attribute alone — no transport state is
even an input); after a successful `connect()` it returns `True`, and it
returns `False` after `_cleanup_socket` or `disconnect` (with or without
reuse), which set the attribute to `None`. -/
theorem C10_is_connected_ignores_transport (name : String) (port : Nat)
    (env : ConnectEnv) (g : GlobalState) :
    (∀ c : ClientConn, is_connected c = c.socket.isSome) ∧
    ((connect name port env g).ok = true →
      is_connected (connect name port env g).c = true) ∧
    (∀ c : ClientConn, is_connected (cleanup_socket c).1 = false) ∧
    (∀ (reuse : Bool) (key : String) (c : ClientConn) (g2 : GlobalState),
      is_connected (disconnect reuse key c g2).1 = false) := by
  refine ⟨fun c => rfl, ?_, ?_, ?_⟩
  · intro hok
    simp only [connect] at hok ⊢
    cases hsock : (get_pooled_connection (pool_key name port) env.probeOk g).sock with
    | some s => simp [hsock, is_connected]
    | none =>
      simp only [hsock] at hok ⊢
      by_cases hv : (verify_tailscale_once env.now env.tailscaleCheckOutcome
          (get_pooled_connection (pool_key name port) env.probeOk g).g).ok
      · simp only [hv, if_true] at hok ⊢
        rw [is_connected, quick_connect_ok_socket name env ⟨none⟩ _ hok]
        rfl
      · simp only [hv, if_false, Bool.false_eq_true] at hok
  · intro c
    unfold cleanup_socket
    cases h : c.socket with
    | some sock => simp [is_connected]
    | none => simp [is_connected, h]
  · intro reuse key c g2
    unfold disconnect
    cases h : c.socket with
    | none => simp [is_connected, h]
    | some sock =>
      by_cases hr : reuse
      · simp [hr, return_to_pool, h, is_connected]
      · simp [hr, is_connected]

/-- `time.sleep(2)` between polls of `_monitor_client_connections`
(`reception_handler.py` line 242). -/
def POLL_INTERVAL : Nat := 2

/-- The 30-second grace window (line 233: `>= 30`). -/
def GRACE_SECONDS : Nat := 30

/-- Events observable from the disconnect monitor: the "disconnected,
waiting 30 s" warning, the "reconnected" log line, and the session teardown
(`_handle_all_clients_disconnected`). Each carries the poll time. -/
inductive MonEvent where
  | warned (t : Nat)
  | reconnected (t : Nat)
  | teardown (t : Nat)
deriving DecidableEq

/-- State threaded through the monitor loop: `disconnection_time`, the
emitted events, whether the loop has exited (`break` after teardown), and
the handler state that teardown clears (`current_meet_url`, plus a flag
recording that the meeting was left). -/
structure MonAcc where
  dt : Option Nat
  events : List MonEvent
  done : Bool
  meetUrl : Option String
  leftMeeting : Bool

/-- One poll iteration of `_monitor_client_connections` (lines 223-242) at
time `now` observing `hasClient = len(self.server.clients) > 0`, including
the effect of `_handle_all_clients_disconnected` (lines 248-265) when the
grace window has elapsed. -/
def monitor_step (now : Nat) (hasClient : Bool) (a : MonAcc) : MonAcc :=
  if a.done then a
  else if hasClient then
    match a.dt with
    | some _ =>
      { a with dt := none,
               events := a.events ++ [MonEvent.reconnected now] }
    | none => a
  else
    match a.dt with
    | none =>
      { a with dt := some now,
               events := a.events ++ [MonEvent.warned now] }
    | some t =>
      if GRACE_SECONDS ≤ now - t then
        { a with events := a.events ++ [MonEvent.teardown now],
                 done := true, meetUrl := none, leftMeeting := true }
      else a

/-- The monitor loop: tick `i` happens at time `POLL_INTERVAL * i` and
observes `obs i`; `fuel` bounds the number of iterations (the Python loop
runs until the teardown `break` or shutdown). -/
def monitor_go (obs : Nat → Bool) : Nat → Nat → MonAcc → MonAcc
  | 0, _, a => a
  | fuel + 1, i, a =>
    monitor_go obs fuel (i + 1) (monitor_step (POLL_INTERVAL * i) (obs i) a)

/-- A monitor started by `_start_disconnection_monitoring`:
`disconnection_time = None`, no events, loop live, a current meeting link. -/
def monitor_run (obs : Nat → Bool) (fuel : Nat) (url : Option String) :
    MonAcc :=
  monitor_go obs fuel 0 ⟨none, [], false, url, false⟩

lemma monitor_step_done (now : Nat) (b : Bool) (a : MonAcc)
    (h : a.done = true) : monitor_step now b a = a := by
  simp [monitor_step, h]

lemma monitor_go_of_done (obs : Nat → Bool) (fuel i : Nat) (a : MonAcc)
    (h : a.done = true) : monitor_go obs fuel i a = a := by
  induction fuel generalizing i a with
  | zero => rfl
  | succ fuel ih =>
    rw [monitor_go, monitor_step_done _ _ _ h]
    exact ih _ _ h

/-- Teardown happens only after a full grace window of empty polls: if the
run emits `teardown T`, then some tick `j` first observed the client set
empty, every poll from `j` up to the teardown tick `k` observed it empty,
at least `GRACE_SECONDS` elapsed between them, and the final state has the
meeting left and the link cleared. -/
lemma monitor_go_teardown_window (obs : Nat → Bool) (T : Nat) :
    ∀ (fuel i : Nat) (a : MonAcc),
      a.done = false →
      (∀ u, MonEvent.teardown u ∉ a.events) →
      (∀ t, a.dt = some t → ∃ j, t = POLL_INTERVAL * j ∧ j ≤ i ∧
        ∀ m, j ≤ m → m < i → obs m = false) →
      MonEvent.teardown T ∈ (monitor_go obs fuel i a).events →
      ∃ j k, j + 15 ≤ k ∧ T = POLL_INTERVAL * k ∧
        (∀ m, j ≤ m → m ≤ k → obs m = false) ∧
        (monitor_go obs fuel i a).meetUrl = none ∧
        (monitor_go obs fuel i a).leftMeeting = true := by
  intro fuel
  induction fuel with
  | zero =>
    intro i a hdone hfree hdt hmem
    exact absurd hmem (hfree T)
  | succ fuel ih =>
    intro i a hdone hfree hdt hmem
    rw [monitor_go] at hmem ⊢
    by_cases hc : obs i
    · cases hdta : a.dt with
      | some t =>
        have ha : monitor_step (POLL_INTERVAL * i) (obs i) a =
            { a with dt := none,
                     events := a.events ++
                       [MonEvent.reconnected (POLL_INTERVAL * i)] } := by
          simp [monitor_step, hdone, hc, hdta]
        rw [ha] at hmem ⊢
        refine ih (i + 1) _ hdone ?_ ?_ hmem
        · intro u hu
          rcases List.mem_append.mp hu with h1 | h2
          · exact hfree u h1
          · simp at h2
        · intro t' h
          simp at h
      | none =>
        have ha : monitor_step (POLL_INTERVAL * i) (obs i) a = a := by
          simp [monitor_step, hdone, hc, hdta]
        rw [ha] at hmem ⊢
        refine ih (i + 1) a hdone hfree ?_ hmem
        intro t' h
        rw [hdta] at h
        cases h
    · have hcf : obs i = false := by simpa using hc
      cases hdta : a.dt with
      | none =>
        have ha : monitor_step (POLL_INTERVAL * i) (obs i) a =
            { a with dt := some (POLL_INTERVAL * i),
                     events := a.events ++
                       [MonEvent.warned (POLL_INTERVAL * i)] } := by
          simp [monitor_step, hdone, hc, hdta]
        rw [ha] at hmem ⊢
        refine ih (i + 1) _ hdone ?_ ?_ hmem
        · intro u hu
          rcases List.mem_append.mp hu with h1 | h2
          · exact hfree u h1
          · simp at h2
        · intro t' h
          simp only [Option.some.injEq] at h
          refine ⟨i, h.symm, by omega, ?_⟩
          intro m hm1 hm2
          have hmi : m = i := by omega
          rw [hmi]
          exact hcf
      | some t =>
        by_cases hg : GRACE_SECONDS ≤ POLL_INTERVAL * i - t
        · have ha : monitor_step (POLL_INTERVAL * i) (obs i) a =
              { a with events := a.events ++
                         [MonEvent.teardown (POLL_INTERVAL * i)],
                       done := true, meetUrl := none,
                       leftMeeting := true } := by
            simp [monitor_step, hdone, hc, hdta, hg]
          rw [ha] at hmem ⊢
          rw [monitor_go_of_done _ _ _ _ rfl] at hmem ⊢
          have hT : T = POLL_INTERVAL * i := by
            rcases List.mem_append.mp hmem with h1 | h2
            · exact absurd h1 (hfree T)
            · simpa using h2
          obtain ⟨j, hj1, hj2, hj3⟩ := hdt t hdta
          refine ⟨j, i, ?_, hT, ?_, rfl, rfl⟩
          · rw [hj1] at hg
            simp only [POLL_INTERVAL, GRACE_SECONDS] at hg
            omega
          · intro m hm1 hm2
            rcases Nat.lt_or_ge m i with h | h
            · exact hj3 m hm1 h
            · have hmi : m = i := by omega
              rw [hmi]
              exact hcf
        · have ha : monitor_step (POLL_INTERVAL * i) (obs i) a = a := by
            simp [monitor_step, hdone, hc, hdta, hg]
          rw [ha] at hmem ⊢
          refine ih (i + 1) a hdone hfree ?_ hmem
          intro t' h
          rw [hdta] at h
          obtain ⟨j, hj1, hj2, hj3⟩ := hdt t hdta
          have ht' : t' = t := by
            simpa using h.symm
          refine ⟨j, by rw [ht', hj1], by omega, ?_⟩
          intro m hm1 hm2
          rcases Nat.lt_or_ge m i with hlt | hge
          · exact hj3 m hm1 hlt
          · have hmi : m = i := by omega
            rw [hmi]
            exact hcf

/-- C5. Disconnect grace window: the monitor polls the tracked client set
every 2 seconds; a session teardown (leaving the meeting and clearing the
current meeting link) is emitted only when some poll first observed the set
empty and every poll through the teardown tick — at least `GRACE_SECONDS`
(30 s) later — still observed it empty. A client observed while a
disconnection timer is pending produces exactly a "reconnected" event and
resets the timer, and if within every 30-second span of ticks some poll
observes a client, teardown never occurs. -/
theorem C5_disconnect_grace_window :
    POLL_INTERVAL = 2 ∧ GRACE_SECONDS = 30 ∧
    (∀ (obs : Nat → Bool) (fuel : Nat) (url : Option String) (T : Nat),
      MonEvent.teardown T ∈ (monitor_run obs fuel url).events →
      ∃ j k, POLL_INTERVAL * j + GRACE_SECONDS ≤ POLL_INTERVAL * k ∧
        T = POLL_INTERVAL * k ∧
        (∀ m, j ≤ m → m ≤ k → obs m = false) ∧
        (monitor_run obs fuel url).meetUrl = none ∧
        (monitor_run obs fuel url).leftMeeting = true) ∧
    (∀ (now t : Nat) (a : MonAcc), a.done = false → a.dt = some t →
      monitor_step now true a =
        { a with dt := none,
                 events := a.events ++ [MonEvent.reconnected now] }) ∧
    (∀ (obs : Nat → Bool) (fuel : Nat) (url : Option String),
      (∀ j k, j + 15 ≤ k → ∃ m, j ≤ m ∧ m ≤ k ∧ obs m = true) →
      ∀ T, MonEvent.teardown T ∉ (monitor_run obs fuel url).events) := by
  refine ⟨rfl, rfl, ?_, ?_, ?_⟩
  · intro obs fuel url T hmem
    obtain ⟨j, k, h1, h2, h3, h4, h5⟩ :=
      monitor_go_teardown_window obs T fuel 0 ⟨none, [], false, url, false⟩
        rfl (by intro u hu; simp at hu) (by intro t h; cases h) hmem
    refine ⟨j, k, ?_, h2, h3, h4, h5⟩
    simp only [POLL_INTERVAL, GRACE_SECONDS]
    omega
  · intro now t a h1 h2
    simp [monitor_step, h1, h2]
  · intro obs fuel url hobs T hmem
    obtain ⟨j, k, h1, _, h3, _, _⟩ :=
      monitor_go_teardown_window obs T fuel 0 ⟨none, [], false, url, false⟩
        rfl (by intro u hu; simp at hu) (by intro t h; cases h) hmem
    obtain ⟨m, hm1, hm2, hm3⟩ := hobs j k h1
    rw [h3 m hm1 hm2] at hm3
    cases hm3

/-- Witness for C1 at a concrete one-byte body delivered one byte at a
time. -/
theorem C1_witness :
    ∃ k1 k2 k,
      NetStream.recvExact ⟨sendFrame [104] ++ [], (fun _ => 1), 0⟩ 4 =
        (toBytesBE 4 1, ⟨[104], (fun _ => 1), k1⟩) ∧
      fromBytesBE (toBytesBE 4 1) = 1 ∧
      NetStream.recvExact ⟨[104], (fun _ => 1), k1⟩ 1 =
        ([104], ⟨[], (fun _ => 1), k2⟩) ∧
      handleClientLoop
          (fun b => if b = [104] then BodyClass.json 7 else BodyClass.notJson)
          (fun _ => "m") ["m"] 1 ⟨sendFrame [104] ++ [], (fun _ => 1), 0⟩ =
        ([SrvEvent.dispatched "m" 7 true, SrvEvent.ackSent],
         ⟨[], (fun _ => 1), k⟩) :=
  C1_framing_roundtrip
    (fun b => if b = [104] then BodyClass.json 7 else BodyClass.notJson)
    (fun _ => "m") ["m"] 0 7 [104] [] (fun _ => 1) 0
    (fun i => le_refl 1) (by decide) (by decide) (by rfl)

/-- Witness for C2 at the smallest oversized declared length,
10 MiB + 1. -/
theorem C2_witness :
    ∃ k, handle_client (fun _ => (BodyClass.notJson : BodyClass Nat))
        (fun _ => "x") [] 1 ⟨toBytesBE 4 10485761 ++ [], (fun _ => 1), 0⟩ =
      ⟨[SrvEvent.loggedOversized 10485761], ⟨[], (fun _ => 1), k⟩,
       true, true⟩ :=
  C2_oversized_frame_rejected (fun _ => (BodyClass.notJson : BodyClass Nat))
    (fun _ => "x") [] 0 10485761 [] (fun _ => 1) 0
    (by norm_num [maxMessageBytes]) (by norm_num) (fun i => le_refl 1)

/-- Witness for C3: an ack timeout yields `True`; a delivered ack with
status `"bad"` yields `False` despite a successful write. -/
theorem C3_witness :
    send_json_message true true RecvOutcome.timedOut RecvOutcome.timedOut
      (fun _ => none) = true ∧
    send_json_message true true (RecvOutcome.got [0, 0, 0, 1])
      (RecvOutcome.got [9]) (fun _ => some ⟨some "bad"⟩) = false :=
  ⟨C3_ack_timeout_nonfatal.1 RecvOutcome.timedOut (fun _ => none),
   C3_ack_timeout_nonfatal.2.2.2.1 [0, 0, 0, 1] [9]
     (fun _ => some ⟨some "bad"⟩) ⟨some "bad"⟩ (by decide) (by decide) rfl
     (by decide)⟩

/-- Witness for C4: a `"b"` body that is not JSON followed by a `"g"` body
decoding to the message `5`, delivered one byte at a time. -/
theorem C4_witness :
    ∃ k, handleClientLoop
        (fun b => if b = [103] then BodyClass.json 5 else BodyClass.notJson)
        (fun _ => "m") ["m"] 2
        ⟨sendFrame [98] ++ (sendFrame [103] ++ []), (fun _ => 1), 0⟩ =
      ([SrvEvent.loggedJsonError, SrvEvent.dispatched "m" 5 true,
        SrvEvent.ackSent], ⟨[], (fun _ => 1), k⟩) :=
  C4_malformed_frame_tolerated
    (fun b => if b = [103] then BodyClass.json 5 else BodyClass.notJson)
    (fun _ => "m") ["m"] 0 [98] [103] [] (fun _ => 1) 0 5
    (fun i => le_refl 1) (by decide) (by decide) (by rfl)
    (by decide) (by decide) (by rfl)

/-- Witness for C5: with no client ever observed, the run of 16 polls
emits `teardown 30`, and the theorem produces the 30-second empty window
and the cleared session state. -/
theorem C5_witness :
    ∃ j k, POLL_INTERVAL * j + GRACE_SECONDS ≤ POLL_INTERVAL * k ∧
      30 = POLL_INTERVAL * k ∧
      (∀ m, j ≤ m → m ≤ k → (fun _ => false : Nat → Bool) m = false) ∧
      (monitor_run (fun _ => false) 16 (some "u")).meetUrl = none ∧
      (monitor_run (fun _ => false) 16 (some "u")).leftMeeting = true :=
  C5_disconnect_grace_window.2.2.1 (fun _ => false) 16 (some "u") 30
    (by decide)

/-- Witness for C6: a pooled socket `5` under key `"front-pc:9999"` with a
passing probe is reused as-is, with no Tailscale check and no resolution. -/
theorem C6_witness :
    connect "front-pc" 9999 ⟨fun _ => true, 0, true, fun _ => none, 6, true⟩
        ⟨[("front-pc:9999", 5)], false, 0, []⟩ =
      ⟨true, ⟨some 5⟩,
       ⟨eraseEntry [("front-pc:9999", 5)] (pool_key "front-pc" 9999),
        false, 0, []⟩, [], true, false, false⟩ :=
  (C6_pooled_connection_reuse "front-pc" 9999
    ⟨fun _ => true, 0, true, fun _ => none, 6, true⟩
    ⟨[("front-pc:9999", 5)], false, 0, []⟩ 5 (by decide)).1 rfl

/-- Witness for C7: a cache hit for `"d"` bypasses the (now different)
directory, and a Tailscale check 350 s after the recorded time is
re-performed. -/
theorem C7_witness :
    resolve_device_name_cached "d" (fun _ => none)
        ⟨[], false, 0, [("d", "10.0.0.1")]⟩ =
      ⟨some "10.0.0.1", ⟨[], false, 0, [("d", "10.0.0.1")]⟩, false⟩ ∧
    (verify_tailscale_once 400 true ⟨[], true, 50, []⟩).checkPerformed =
      true :=
  ⟨C7_resolution_cache_no_ttl.1 "d" (fun _ => none)
     ⟨[], false, 0, [("d", "10.0.0.1")]⟩ "10.0.0.1" (by decide),
   C7_resolution_cache_no_ttl.2.2.2.1 400 true ⟨[], true, 50, []⟩
     (by decide)⟩

/-- Witness for C9: a zero-length frame followed by nothing, delivered one
byte at a time. -/
theorem C9_witness :
    (∀ s : NetStream, (s.recvExact 0).1 = []) ∧
    (∀ (sch : Nat → Nat) (i : Nat),
      (NetStream.recvExact ⟨[], sch, i⟩ 4).1 = []) ∧
    ∃ k, handle_client (fun _ => (BodyClass.notJson : BodyClass Nat))
        (fun _ => "x") [] 1 ⟨toBytesBE 4 0 ++ [], (fun _ => 1), 0⟩ =
      ⟨[], ⟨[], (fun _ => 1), k⟩, true, true⟩ :=
  C9_zero_length_frame_disconnects
    (fun _ => (BodyClass.notJson : BodyClass Nat)) (fun _ => "x") [] 0 []
    (fun _ => 1) 0 (fun i => le_refl 1)

/-- Witness for C10: `is_connected` is `True` after a successful pooled
`connect()`, `False` after `_cleanup_socket` and after `disconnect`. -/
theorem C10_witness :
    is_connected (connect "front-pc" 9999
      ⟨fun _ => true, 0, true, fun _ => none, 6, true⟩
      ⟨[("front-pc:9999", 5)], false, 0, []⟩).c = true ∧
    is_connected (cleanup_socket ⟨some 3⟩).1 = false ∧
    is_connected (disconnect true "k" ⟨some 3⟩ ⟨[], false, 0, []⟩).1 =
      false :=
  ⟨(C10_is_connected_ignores_transport "front-pc" 9999
      ⟨fun _ => true, 0, true, fun _ => none, 6, true⟩
      ⟨[("front-pc:9999", 5)], false, 0, []⟩).2.1 (by decide),
   (C10_is_connected_ignores_transport "front-pc" 9999
      ⟨fun _ => true, 0, true, fun _ => none, 6, true⟩
      ⟨[("front-pc:9999", 5)], false, 0, []⟩).2.2.1 ⟨some 3⟩,
   (C10_is_connected_ignores_transport "front-pc" 9999
      ⟨fun _ => true, 0, true, fun _ => none, 6, true⟩
      ⟨[("front-pc:9999", 5)], false, 0, []⟩).2.2.2 true "k" ⟨some 3⟩
     ⟨[], false, 0, []⟩⟩

end ReceptionAvatar
